/-
Verification of the doxie-discs vinyl-record cataloging service.

This file gives a shallow embedding of the service layer of the repository
(session management, entity services for artists/genres/labels, and the
record aggregate service with its transactional create/update and its
dynamic search), and proves the specified properties about it.

The storage backend is modelled as explicit lists of rows (one list per
table) threaded through every operation; SQL time defaults
(CURRENT_TIMESTAMP) are modelled by an explicit `now : Int` parameter, and
the crypto random source by an explicit list of bytes.  A transaction with
`defer tx.Rollback()` is modelled by returning the original state on the
error path and the transformed state on the commit path.
-/

import Mathlib

set_option maxHeartbeats 1000000

/-! ### Character and string helpers

Postgres `ORDER BY ... ASC` on text columns is modelled by lexicographic
comparison of the character lists, and `ILIKE '%' || q || '%'` by
case-insensitive substring containment (ASCII case folding). -/
/-- Lexicographic comparison of character lists, by code point. -/
def charsLe : List Char → List Char → Bool
  | [], _ => true
  | _ :: _, [] => false
  | a :: as, b :: bs =>
    if a.toNat < b.toNat then true
    else if b.toNat < a.toNat then false
    else charsLe as bs

/-- ASCII lower-casing of one character. -/
def lowerChar (c : Char) : Char :=
  if 65 ≤ c.toNat ∧ c.toNat ≤ 90 then Char.ofNat (c.toNat + 32) else c

/-- ASCII lower-casing of a character list. -/
def lowerChars (l : List Char) : List Char := l.map lowerChar

/-- Does `pat` occur as a prefix of `hay`? -/
def hasPrefixChars : List Char → List Char → Bool
  | [], _ => true
  | _ :: _, [] => false
  | p :: ps, h :: hs => p == h && hasPrefixChars ps hs

/-- Does `pat` occur as a contiguous segment of `hay`? -/
def hasSubChars (pat : List Char) : List Char → Bool
  | [] => hasPrefixChars pat []
  | h :: hs => hasPrefixChars pat (h :: hs) || hasSubChars pat hs

/-- `v ILIKE '%' || q || '%'`: case-insensitive substring containment. -/
def ilikeSub (v : String) (q : String) : Bool :=
  hasSubChars (lowerChars q.data) (lowerChars v.data)

/-- `ILIKE` applied to a nullable column: a NULL value matches nothing. -/
def optIlikeSub (v : Option String) (q : String) : Bool :=
  match v with
  | some s => ilikeSub s q
  | none => false

def charsLe_total : ∀ (a b : List Char), charsLe a b = true ∨ charsLe b a = true
  | [], _ => Or.inl rfl
  | _ :: _, [] => Or.inr rfl
  | a :: as, b :: bs => by
    by_cases h1 : a.toNat < b.toNat
    · left; simp [charsLe, h1]
    · by_cases h2 : b.toNat < a.toNat
      · right; simp [charsLe, h2]
      · rcases charsLe_total as bs with ih | ih
        · left; simp [charsLe, h1, h2, ih]
        · right; simp [charsLe, h1, h2, ih]

def charsLe_trans : ∀ (a b c : List Char),
    charsLe a b = true → charsLe b c = true → charsLe a c = true
  | [], _, _, _, _ => rfl
  | _ :: _, [], _, h, _ => by simp [charsLe] at h
  | _ :: _, _ :: _, [], _, h => by simp [charsLe] at h
  | a :: as, b :: bs, c :: cs, h1, h2 => by
    simp only [charsLe] at h1 h2 ⊢
    by_cases hab : a.toNat < b.toNat
    · by_cases hbc : b.toNat < c.toNat
      · have : a.toNat < c.toNat := Nat.lt_trans hab hbc
        simp [this]
      · simp [hab] at h1
        by_cases hcb : c.toNat < b.toNat
        · simp [hbc, hcb] at h2
        · have hbceq : b.toNat = c.toNat := Nat.le_antisymm (Nat.le_of_not_lt hcb) (Nat.le_of_not_lt hbc)
          have : a.toNat < c.toNat := hbceq ▸ hab
          simp [this]
    · by_cases hba : b.toNat < a.toNat
      · simp [hab, hba] at h1
      · have habeq : a.toNat = b.toNat := Nat.le_antisymm (Nat.le_of_not_lt hba) (Nat.le_of_not_lt hab)
        simp [hab, hba] at h1
        by_cases hbc : b.toNat < c.toNat
        · have : a.toNat < c.toNat := habeq ▸ hbc
          simp [this]
        · by_cases hcb : c.toNat < b.toNat
          · simp [hbc, hcb] at h2
          · have hbceq : b.toNat = c.toNat := Nat.le_antisymm (Nat.le_of_not_lt hcb) (Nat.le_of_not_lt hbc)
            have hac : ¬ a.toNat < c.toNat := by omega
            have hca : ¬ c.toNat < a.toNat := by omega
            simp [hbc, hcb] at h2
            simp [hac, hca]
            exact charsLe_trans as bs cs h1 h2

/-- `ORDER BY position ASC` on a nullable text column: NULLs sort last
(Postgres default for ascending order). -/
def posLe (a b : Option String) : Bool :=
  match a, b with
  | none, none => true
  | none, some _ => false
  | some _, none => true
  | some x, some y => charsLe x.data y.data

def posLe_total (a b : Option String) : posLe a b = true ∨ posLe b a = true := by
  cases a with
  | none => cases b with
    | none => left; rfl
    | some y => right; rfl
  | some x => cases b with
    | none => left; rfl
    | some y => exact charsLe_total x.data y.data

def posLe_trans (a b c : Option String)
    (h1 : posLe a b = true) (h2 : posLe b c = true) : posLe a c = true := by
  cases a with
  | none =>
    cases b with
    | none => cases c with
      | none => rfl
      | some z => simp [posLe] at h2
    | some y => simp [posLe] at h1
  | some x =>
    cases c with
    | none => rfl
    | some z =>
      cases b with
      | none => simp [posLe] at h2
      | some y => exact charsLe_trans x.data y.data z.data h1 h2

/-! ### URL-safe base64 (RFC 4648), as used by `base64.URLEncoding` in Go. -/
/-- The URL-safe base64 alphabet. -/
def b64Char (n : Nat) : Char :=
  if n < 26 then Char.ofNat (65 + n)
  else if n < 52 then Char.ofNat (97 + (n - 26))
  else if n < 62 then Char.ofNat (48 + (n - 52))
  else if n = 62 then Char.ofNat 45
  else Char.ofNat 95

/-- Encode bytes in groups of three, padding the tail with the pad character. -/
def b64EncodeGroups : List Nat → List Char
  | [] => []
  | [b0] => [b64Char (b0 / 4), b64Char ((b0 % 4) * 16), Char.ofNat 61, Char.ofNat 61]
  | [b0, b1] => [b64Char (b0 / 4), b64Char ((b0 % 4) * 16 + b1 / 16),
                 b64Char ((b1 % 16) * 4), Char.ofNat 61]
  | b0 :: b1 :: b2 :: rest =>
    b64Char (b0 / 4) :: b64Char ((b0 % 4) * 16 + b1 / 16) ::
    b64Char ((b1 % 16) * 4 + b2 / 64) :: b64Char (b2 % 64) :: b64EncodeGroups rest

/-- `base64.URLEncoding.EncodeToString`. -/
def base64UrlEncode (bytes : List Nat) : String := String.mk (b64EncodeGroups bytes)

/-! ### Stored rows (one structure per table, mirroring the SQL schema) -/
/-- A row of the `artists` table. -/
structure ArtistRow where
  id : Nat
  name : String
  description : Option String
  userId : Nat
  createdAt : Int
  updatedAt : Int
deriving DecidableEq

/-- A row of the `genres` table. -/
structure GenreRow where
  id : Nat
  name : String
  description : Option String
  userId : Nat
  createdAt : Int
  updatedAt : Int
deriving DecidableEq

/-- A row of the `labels` table. -/
structure LabelRow where
  id : Nat
  name : String
  description : Option String
  userId : Nat
  createdAt : Int
  updatedAt : Int
deriving DecidableEq

/-- A row of the `records` table. -/
structure RecordRow where
  id : Nat
  title : String
  releaseYear : Option Int
  catalogNumber : Option String
  condition : Option String
  notes : Option String
  coverImageUrl : Option String
  storageLocation : Option String
  userId : Nat
  labelId : Option Nat
  createdAt : Int
  updatedAt : Int
deriving DecidableEq

/-- A row of the `artist_record` junction table. -/
structure ArtistRecordRow where
  artistId : Nat
  recordId : Nat
  role : Option String
deriving DecidableEq

/-- A row of the `genre_record` junction table. -/
structure GenreRecordRow where
  genreId : Nat
  recordId : Nat
deriving DecidableEq

/-- A row of the `tracks` table. -/
structure TrackRow where
  id : Nat
  title : String
  duration : Option String
  position : Option String
  recordId : Nat
  createdAt : Int
  updatedAt : Int
deriving DecidableEq

/-- A row of the `sessions` table. -/
structure SessionRow where
  id : Nat
  userId : Nat
  token : String
  data : String
  ipAddress : String
  userAgent : String
  expiresAt : Int
  createdAt : Int
  updatedAt : Int
deriving DecidableEq

/-- The storage backend: the tables plus the SERIAL counters the claims need. -/
structure DB where
  artists : List ArtistRow
  genres : List GenreRow
  labels : List LabelRow
  records : List RecordRow
  artistRecord : List ArtistRecordRow
  genreRecord : List GenreRecordRow
  tracks : List TrackRow
  sessions : List SessionRow
  nextRecordId : Nat
  nextTrackId : Nat
  nextSessionId : Nat
deriving DecidableEq

/-- A database with no rows. -/
def DB.empty : DB :=
  { artists := [], genres := [], labels := [], records := [],
    artistRecord := [], genreRecord := [], tracks := [], sessions := [],
    nextRecordId := 1, nextTrackId := 1, nextSessionId := 1 }

/-! ### In-memory model structs (mirroring the Go `models` package) -/
/-- `models.Artist`: `Role` is only used in the artist_record context. -/
structure Artist where
  ID : Nat := 0
  Name : String := ""
  Description : String := ""
  UserID : Nat := 0
  CreatedAt : Int := 0
  UpdatedAt : Int := 0
  Role : String := ""
deriving DecidableEq

/-- `models.Genre`. -/
structure Genre where
  ID : Nat := 0
  Name : String := ""
  Description : String := ""
  UserID : Nat := 0
  CreatedAt : Int := 0
  UpdatedAt : Int := 0
deriving DecidableEq

/-- `models.Label`. -/
structure Label where
  ID : Nat := 0
  Name : String := ""
  Description : String := ""
  UserID : Nat := 0
  CreatedAt : Int := 0
  UpdatedAt : Int := 0
deriving DecidableEq

/-- `models.Track`. -/
structure Track where
  ID : Nat := 0
  Title : String := ""
  Duration : String := ""
  Position : String := ""
  RecordID : Nat := 0
  CreatedAt : Int := 0
  UpdatedAt : Int := 0
deriving DecidableEq

/-- `models.Record` with its aggregated associations. -/
structure Record where
  ID : Nat := 0
  Title : String := ""
  ReleaseYear : Int := 0
  CatalogNumber : String := ""
  Condition : String := ""
  Notes : String := ""
  CoverImageURL : String := ""
  StorageLocation : String := ""
  UserID : Nat := 0
  LabelID : Nat := 0
  CreatedAt : Int := 0
  UpdatedAt : Int := 0
  Artists : List Artist := []
  Genres : List Genre := []
  Tracks : List Track := []
  Label : Option Label := none
deriving DecidableEq

/-- `models.Session`. -/
structure Session where
  ID : Nat := 0
  UserID : Nat := 0
  Token : String := ""
  Data : String := ""
  IPAddress : String := ""
  UserAgent : String := ""
  ExpiresAt : Int := 0
  CreatedAt : Int := 0
  UpdatedAt : Int := 0
deriving DecidableEq

/-! ### SessionService (db/models/session.go) -/
/-- Scanning a full `sessions` row into a `Session` value. -/
def sessionRowToSession (row : SessionRow) : Session :=
  { ID := row.id, UserID := row.userId, Token := row.token, Data := row.data,
    IPAddress := row.ipAddress, UserAgent := row.userAgent, ExpiresAt := row.expiresAt,
    CreatedAt := row.createdAt, UpdatedAt := row.updatedAt }

/-- `SessionService.Create`.  The random source is the explicit `randBytes`
(Go fills a 32-byte slice from `crypto/rand` and base64url-encodes it), and
`dataJSON` is the already-marshalled session payload.  The INSERT uses the
computed `expires_at = now + duration`, while `created_at`/`updated_at`
default to CURRENT_TIMESTAMP (`now`).  The Go code then scans
`RETURNING id, created_at, updated_at` into `(&sessionID, &expiresAt,
&expiresAt)`, reusing the `expiresAt` variable, which therefore ends up
holding the row's `updated_at`; the returned struct is built from that
variable.  The shadowing `let`s mirror those reassignments. -/
def SessionService.Create (now : Int) (db : DB) (userID : Nat) (dataJSON : String)
    (ipAddress userAgent : String) (duration : Int) (randBytes : List Nat) :
    Session × DB :=
  let sessionToken := base64UrlEncode randBytes
  let expiresAt := now + duration
  let row : SessionRow :=
    { id := db.nextSessionId, userId := userID, token := sessionToken, data := dataJSON,
      ipAddress := ipAddress, userAgent := userAgent, expiresAt := expiresAt,
      createdAt := now, updatedAt := now }
  let db1 := { db with sessions := db.sessions ++ [row], nextSessionId := db.nextSessionId + 1 }
  let sessionID := row.id
  let expiresAt := row.createdAt
  let expiresAt := row.updatedAt
  ({ ID := sessionID, UserID := userID, Token := sessionToken, Data := dataJSON,
     IPAddress := ipAddress, UserAgent := userAgent, ExpiresAt := expiresAt,
     CreatedAt := expiresAt, UpdatedAt := expiresAt }, db1)

/-- `SessionService.Delete`: `DELETE FROM sessions WHERE id = $1`. -/
def SessionService.Delete (db : DB) (sessionID : Nat) : DB :=
  { db with sessions := db.sessions.filter (fun s => !(s.id == sessionID)) }

/-- `SessionService.GetByToken`: look up by exact token; if found but the
expiry is in the past (`time.Now().After(session.ExpiresAt)`), delete the
row and return an error; otherwise return the session.  The second
component is the storage state after the call. -/
def SessionService.GetByToken (now : Int) (db : DB) (token : String) :
    Except String Session × DB :=
  match db.sessions.find? (fun s => s.token == token) with
  | none => (Except.error "sql: no rows in result set", db)
  | some row =>
    if row.expiresAt < now then
      (Except.error "session expired", SessionService.Delete db row.id)
    else
      (Except.ok (sessionRowToSession row), db)

/-- `SessionService.Refresh`: `UPDATE sessions SET expires_at = $1,
updated_at = NOW() WHERE token = $2` via `Exec`, whose error is the only
thing returned — a zero-row update is not an error. -/
def SessionService.Refresh (now : Int) (db : DB) (token : String) (duration : Int) :
    Except String Unit × DB :=
  (Except.ok (),
   { db with sessions := db.sessions.map (fun s =>
       if s.token == token then { s with expiresAt := now + duration, updatedAt := now } else s) })

/-! ### GenreHandler (api/handlers/genres.go): the unimplemented endpoints -/
/-- An HTTP response as far as these handlers are concerned. -/
structure HTTPResponse where
  status : Nat
  body : String
deriving DecidableEq

/-- `GenreHandler.UpdateGenre`: writes status 200 and a JSON
`status: not implemented` body, touching no storage. -/
def GenreHandler.UpdateGenre (db : DB) : HTTPResponse × DB :=
  ({ status := 200, body := "\x7b\"status\":\"not implemented\"\x7d\n" }, db)

/-- `GenreHandler.DeleteGenre`: writes status 204 with an empty body,
touching no storage. -/
def GenreHandler.DeleteGenre (db : DB) : HTTPResponse × DB :=
  ({ status := 204, body := "" }, db)

/-! ### Entity services (db/models/artist.go, genre.go, label.go)

`Update` runs `UPDATE ... WHERE id = $N AND user_id = $M RETURNING
updated_at` through `QueryRow().Scan`, so a zero-row update surfaces as the
driver's not-found error.  `Delete` runs `DELETE ... WHERE id = $1 AND
user_id = $2` through `Exec` and returns only `Exec`'s error, which is nil
even when no row matched. -/
/-- `ArtistService.Update`. -/
def ArtistService.Update (now : Int) (db : DB) (artist : Artist) : Except String Artist × DB :=
  if db.artists.any (fun row => row.id == artist.ID && row.userId == artist.UserID) then
    (Except.ok { artist with UpdatedAt := now },
     { db with artists := db.artists.map (fun row =>
         if row.id == artist.ID && row.userId == artist.UserID then
           { row with name := artist.Name,
                      description := if artist.Description != "" then some artist.Description else none,
                      updatedAt := now }
         else row) })
  else (Except.error "sql: no rows in result set", db)

/-- `ArtistService.Delete`. -/
def ArtistService.Delete (db : DB) (id userID : Nat) : Except String Unit × DB :=
  (Except.ok (),
   { db with artists := db.artists.filter (fun row => !(row.id == id && row.userId == userID)) })

/-- `GenreService.Update`. -/
def GenreService.Update (now : Int) (db : DB) (genre : Genre) : Except String Genre × DB :=
  if db.genres.any (fun row => row.id == genre.ID && row.userId == genre.UserID) then
    (Except.ok { genre with UpdatedAt := now },
     { db with genres := db.genres.map (fun row =>
         if row.id == genre.ID && row.userId == genre.UserID then
           { row with name := genre.Name,
                      description := if genre.Description != "" then some genre.Description else none,
                      updatedAt := now }
         else row) })
  else (Except.error "sql: no rows in result set", db)

/-- `GenreService.Delete`. -/
def GenreService.Delete (db : DB) (id userID : Nat) : Except String Unit × DB :=
  (Except.ok (),
   { db with genres := db.genres.filter (fun row => !(row.id == id && row.userId == userID)) })

/-- `LabelService.Update`. -/
def LabelService.Update (now : Int) (db : DB) (label : Label) : Except String Label × DB :=
  if db.labels.any (fun row => row.id == label.ID && row.userId == label.UserID) then
    (Except.ok { label with UpdatedAt := now },
     { db with labels := db.labels.map (fun row =>
         if row.id == label.ID && row.userId == label.UserID then
           { row with name := label.Name,
                      description := if label.Description != "" then some label.Description else none,
                      updatedAt := now }
         else row) })
  else (Except.error "sql: no rows in result set", db)

/-- `LabelService.Delete`. -/
def LabelService.Delete (db : DB) (id userID : Nat) : Except String Unit × DB :=
  (Except.ok (),
   { db with labels := db.labels.filter (fun row => !(row.id == id && row.userId == userID)) })

/-! ### RecordService (db/models/record.go): ordering relations

Each `ORDER BY column ASC` is modelled by insertion sort with the
corresponding relation. -/
/-- `ORDER BY a.name ASC` on loaded artists. -/
def artistLe (a b : Artist) : Prop := charsLe a.Name.data b.Name.data = true

instance : DecidableRel artistLe := fun a b =>
  inferInstanceAs (Decidable (charsLe a.Name.data b.Name.data = true))

instance : IsTotal Artist artistLe :=
  ⟨fun a b => charsLe_total a.Name.data b.Name.data⟩

instance : IsTrans Artist artistLe :=
  ⟨fun a b c => charsLe_trans a.Name.data b.Name.data c.Name.data⟩

/-- `ORDER BY g.name ASC` on loaded genres. -/
def genreLe (a b : Genre) : Prop := charsLe a.Name.data b.Name.data = true

instance : DecidableRel genreLe := fun a b =>
  inferInstanceAs (Decidable (charsLe a.Name.data b.Name.data = true))

instance : IsTotal Genre genreLe :=
  ⟨fun a b => charsLe_total a.Name.data b.Name.data⟩

instance : IsTrans Genre genreLe :=
  ⟨fun a b c => charsLe_trans a.Name.data b.Name.data c.Name.data⟩

/-- `ORDER BY position ASC` on track rows (NULLs last). -/
def trackRowLe (a b : TrackRow) : Prop := posLe a.position b.position = true

instance : DecidableRel trackRowLe := fun a b =>
  inferInstanceAs (Decidable (posLe a.position b.position = true))

instance : IsTotal TrackRow trackRowLe :=
  ⟨fun a b => posLe_total a.position b.position⟩

instance : IsTrans TrackRow trackRowLe :=
  ⟨fun a b c => posLe_trans a.position b.position c.position⟩

/-- `ORDER BY r.title ASC` on record rows. -/
def recordRowTitleLe (a b : RecordRow) : Prop := charsLe a.title.data b.title.data = true

instance : DecidableRel recordRowTitleLe := fun a b =>
  inferInstanceAs (Decidable (charsLe a.title.data b.title.data = true))

instance : IsTotal RecordRow recordRowTitleLe :=
  ⟨fun a b => charsLe_total a.title.data b.title.data⟩

instance : IsTrans RecordRow recordRowTitleLe :=
  ⟨fun a b c => charsLe_trans a.title.data b.title.data c.title.data⟩

/-! ### RecordService: scanning rows into model structs -/
/-- One scanned row of the `loadArtists` join (a.id, a.name, a.description,
a.user_id, ar.role), with NULL description/role becoming the empty string. -/
def artistFromJoin (a : ArtistRow) (role : Option String) : Artist :=
  { ID := a.id, Name := a.name, Description := a.description.getD "", UserID := a.userId,
    Role := role.getD "" }

/-- One scanned row of the `loadGenres` join. -/
def genreFromRow (g : GenreRow) : Genre :=
  { ID := g.id, Name := g.name, Description := g.description.getD "", UserID := g.userId }

/-- One scanned `tracks` row; `RecordID` is set from the record being
loaded. -/
def trackFromRow (recordID : Nat) (t : TrackRow) : Track :=
  { ID := t.id, Title := t.title, Duration := t.duration.getD "",
    Position := t.position.getD "", RecordID := recordID,
    CreatedAt := t.createdAt, UpdatedAt := t.updatedAt }

/-- One scanned `labels` row. -/
def labelFromRow (l : LabelRow) : Label :=
  { ID := l.id, Name := l.name, Description := l.description.getD "", UserID := l.userId,
    CreatedAt := l.createdAt, UpdatedAt := l.updatedAt }

/-- Scanning a base `records` row, with the nullable-field handling of the
Go code (invalid values leave the zero value in place). -/
def rowToRecordBase (row : RecordRow) : Record :=
  { ID := row.id, Title := row.title, ReleaseYear := row.releaseYear.getD 0,
    CatalogNumber := row.catalogNumber.getD "", Condition := row.condition.getD "",
    Notes := row.notes.getD "", CoverImageURL := row.coverImageUrl.getD "",
    StorageLocation := row.storageLocation.getD "", UserID := row.userId,
    LabelID := row.labelId.getD 0, CreatedAt := row.createdAt, UpdatedAt := row.updatedAt }

/-! ### RecordService: the per-record loaders -/
/-- `loadArtists`: artists joined through artist_record for one record,
carrying the per-relation role, ordered by artist name ascending. -/
def loadArtists (db : DB) (recordID : Nat) : List Artist :=
  List.insertionSort artistLe
    ((db.artistRecord.filter (fun ar => ar.recordId == recordID)).flatMap (fun ar =>
      (db.artists.filter (fun a => a.id == ar.artistId)).map (fun a => artistFromJoin a ar.role)))

/-- `loadGenres`: genres joined through genre_record for one record,
ordered by name ascending. -/
def loadGenres (db : DB) (recordID : Nat) : List Genre :=
  List.insertionSort genreLe
    ((db.genreRecord.filter (fun gr => gr.recordId == recordID)).flatMap (fun gr =>
      (db.genres.filter (fun g => g.id == gr.genreId)).map genreFromRow))

/-- `loadTracks`: the record's tracks ordered by position ascending. -/
def loadTracks (db : DB) (recordID : Nat) : List Track :=
  (List.insertionSort trackRowLe (db.tracks.filter (fun t => t.recordId == recordID))).map
    (trackFromRow recordID)

/-- `loadLabel`: the single label row referenced by the record. -/
def loadLabel (db : DB) (labelID : Nat) : Except String Label :=
  match db.labels.find? (fun l => l.id == labelID) with
  | none => Except.error "sql: no rows in result set"
  | some row => Except.ok (labelFromRow row)

/-- `RecordService.GetByID`: load the base row, then the artists, genres
and tracks, and — when the stored label_id is non-NULL — the label.  A
failing sub-load fails the whole read. -/
def RecordService.GetByID (db : DB) (id : Nat) : Except String Record :=
  match db.records.find? (fun r => r.id == id) with
  | none => Except.error "sql: no rows in result set"
  | some row =>
    let rec1 := { rowToRecordBase row with
                  Artists := loadArtists db id,
                  Genres := loadGenres db id,
                  Tracks := loadTracks db id }
    match row.labelId with
    | some _ =>
      match loadLabel db rec1.LabelID with
      | Except.error e => Except.error e
      | Except.ok lab => Except.ok { rec1 with Label := some lab }
    | none => Except.ok rec1

/-! ### RecordService.Create and RecordService.Update

Both run inside one transaction with `defer tx.Rollback()`: the wrapper
functions return the transformed state only on the commit path and the
original state on any error path. -/
/-- The artist pre-check loop of `Create`: one EXISTS query per referenced
artist, failing on the first artist id with no row. -/
def checkArtistsExist (db : DB) : List Artist → Except String Unit
  | [] => Except.ok ()
  | a :: rest =>
    if db.artists.any (fun row => row.id == a.ID) then checkArtistsExist db rest
    else Except.error ("artist with ID " ++ toString a.ID ++ " does not exist")

/-- The genre pre-check loop of `Create`. -/
def checkGenresExist (db : DB) : List Genre → Except String Unit
  | [] => Except.ok ()
  | g :: rest =>
    if db.genres.any (fun row => row.id == g.ID) then checkGenresExist db rest
    else Except.error ("genre with ID " ++ toString g.ID ++ " does not exist")

/-- The label pre-check of `Create`, only performed for a non-zero
label id. -/
def checkLabelExists (db : DB) (labelID : Nat) : Except String Unit :=
  if labelID != 0 then
    if db.labels.any (fun row => row.id == labelID) then Except.ok ()
    else Except.error ("label with ID " ++ toString labelID ++ " does not exist")
  else Except.ok ()

/-- The track insertion loop: one INSERT ... RETURNING id per track,
writing the generated id back onto the in-memory track.  The raw strings
are inserted as-is (the Go code does not wrap them in NullString here). -/
def insertTracks (now : Int) (recordID : Nat) : DB → List Track → List Track × DB
  | db, [] => ([], db)
  | db, t :: ts =>
    let row : TrackRow :=
      { id := db.nextTrackId, title := t.Title, duration := some t.Duration,
        position := some t.Position, recordId := recordID, createdAt := now, updatedAt := now }
    let db1 := { db with tracks := db.tracks ++ [row], nextTrackId := db.nextTrackId + 1 }
    let res := insertTracks now recordID db1 ts
    ({ t with ID := row.id } :: res.1, res.2)

/-- The body of `RecordService.Create`'s transaction: pre-checks, base-row
insert (empty strings and zero numbers stored as NULL), association
inserts, track inserts. -/
def createTx (now : Int) (db : DB) (record : Record) : Except String (Record × DB) :=
  match checkArtistsExist db record.Artists with
  | Except.error e => Except.error e
  | Except.ok _ =>
    match checkGenresExist db record.Genres with
    | Except.error e => Except.error e
    | Except.ok _ =>
      match checkLabelExists db record.LabelID with
      | Except.error e => Except.error e
      | Except.ok _ =>
        let newID := db.nextRecordId
        let row : RecordRow :=
          { id := newID, title := record.Title,
            releaseYear := if record.ReleaseYear != 0 then some record.ReleaseYear else none,
            catalogNumber := if record.CatalogNumber != "" then some record.CatalogNumber else none,
            condition := if record.Condition != "" then some record.Condition else none,
            notes := if record.Notes != "" then some record.Notes else none,
            coverImageUrl := if record.CoverImageURL != "" then some record.CoverImageURL else none,
            storageLocation := if record.StorageLocation != "" then some record.StorageLocation else none,
            userId := record.UserID,
            labelId := if record.LabelID != 0 then some record.LabelID else none,
            createdAt := now, updatedAt := now }
        let db1 := { db with records := db.records ++ [row], nextRecordId := newID + 1 }
        let record1 := { record with ID := newID, CreatedAt := now, UpdatedAt := now }
        let db2 := { db1 with artistRecord := db1.artistRecord ++ record1.Artists.map (fun a : Artist =>
            ({ artistId := a.ID, recordId := record1.ID, role := some a.Role } : ArtistRecordRow)) }
        let db3 := { db2 with genreRecord := db2.genreRecord ++ record1.Genres.map (fun g : Genre =>
            ({ genreId := g.ID, recordId := record1.ID } : GenreRecordRow)) }
        let res := insertTracks now record1.ID db3 record1.Tracks
        Except.ok ({ record1 with Tracks := res.1 }, res.2)

/-- `RecordService.Create`: commit on success, roll back (original state)
on any failure. -/
def RecordService.Create (now : Int) (db : DB) (record : Record) : Except String Record × DB :=
  match createTx now db record with
  | Except.ok (r, db1) => (Except.ok r, db1)
  | Except.error e => (Except.error e, db)

/-- The scalar UPDATE of the base row, conditioned on `id AND user_id`
(empty strings and zero numbers stored as NULL, `updated_at` set to now). -/
def updateBaseRow (now : Int) (db : DB) (record : Record) : DB :=
  { db with records := db.records.map (fun r : RecordRow =>
      if r.id == record.ID && r.userId == record.UserID then
        { r with title := record.Title,
                 releaseYear := if record.ReleaseYear != 0 then some record.ReleaseYear else none,
                 catalogNumber := if record.CatalogNumber != "" then some record.CatalogNumber else none,
                 condition := if record.Condition != "" then some record.Condition else none,
                 notes := if record.Notes != "" then some record.Notes else none,
                 coverImageUrl := if record.CoverImageURL != "" then some record.CoverImageURL else none,
                 storageLocation := if record.StorageLocation != "" then some record.StorageLocation else none,
                 labelId := if record.LabelID != 0 then some record.LabelID else none,
                 updatedAt := now }
      else r) }

/-- `DELETE FROM artist_record WHERE record_id = $1` followed by one
INSERT per supplied artist. -/
def replaceArtistSet (db : DB) (record : Record) : DB :=
  { db with artistRecord :=
      db.artistRecord.filter (fun ar : ArtistRecordRow => !(ar.recordId == record.ID))
        ++ record.Artists.map (fun a : Artist =>
             ({ artistId := a.ID, recordId := record.ID, role := some a.Role } : ArtistRecordRow)) }

/-- `DELETE FROM genre_record WHERE record_id = $1` followed by one INSERT
per supplied genre. -/
def replaceGenreSet (db : DB) (record : Record) : DB :=
  { db with genreRecord :=
      db.genreRecord.filter (fun gr : GenreRecordRow => !(gr.recordId == record.ID))
        ++ record.Genres.map (fun g : Genre =>
             ({ genreId := g.ID, recordId := record.ID } : GenreRecordRow)) }

/-- `DELETE FROM tracks WHERE record_id = $1`. -/
def deleteTracksFor (db : DB) (recordID : Nat) : DB :=
  { db with tracks := db.tracks.filter (fun t : TrackRow => !(t.recordId == recordID)) }

/-- The body of `RecordService.Update`'s transaction: the guarded scalar
update (zero rows updated is the driver's not-found, surfaced as the
ownership error), then the unconditional delete-and-reinsert of the artist
and genre association sets, and — only when new tracks are supplied — of
the track set. -/
def updateTx (now : Int) (db : DB) (record : Record) : Except String (Record × DB) :=
  if db.records.any (fun r => r.id == record.ID && r.userId == record.UserID) then
    let db1 := updateBaseRow now db record
    let db2 := replaceArtistSet db1 record
    let db3 := replaceGenreSet db2 record
    if record.Tracks.isEmpty then Except.ok ({ record with UpdatedAt := now }, db3)
    else
      let db4 := deleteTracksFor db3 record.ID
      let res := insertTracks now record.ID db4 record.Tracks
      Except.ok ({ record with UpdatedAt := now, Tracks := res.1 }, res.2)
  else Except.error "record not found or does not belong to user"

/-- `RecordService.Update`: commit on success, roll back on any failure. -/
def RecordService.Update (now : Int) (db : DB) (record : Record) : Except String Record × DB :=
  match updateTx now db record with
  | Except.ok (r, db1) => (Except.ok r, db1)
  | Except.error e => (Except.error e, db)

/-- A record row referencing label 5, stored with no labels present. -/
def rowBadLabel : RecordRow :=
  { id := 2, title := "T", releaseYear := none, catalogNumber := none, condition := none,
    notes := none, coverImageUrl := none, storageLocation := none, userId := 1,
    labelId := some 5, createdAt := 0, updatedAt := 0 }

/-- A database holding only `rowBadLabel`. -/
def dbBadLabel : DB := { DB.empty with records := [rowBadLabel] }

/-- A database holding exactly one artist, owned by user 1. -/
def dbOneArtist : DB :=
  { DB.empty with artists :=
      [{ id := 1, name := "A", description := none, userId := 1, createdAt := 0, updatedAt := 0 }] }

/-! ### RecordService.Search (db/models/record.go)

The dynamic search statement LEFT JOINs the record to artist_record,
artists, genre_record, genres and labels, always scoped by user id, and
appends one `ILIKE '%x%'` condition per non-empty parameter, ANDed.  A
LEFT JOIN contributes every matching right-hand row, or one all-NULL row
when none match; `SELECT DISTINCT` over the base-row columns is modelled
by selecting each base row once, with an existential over its joined
rows. -/
/-- One joined row of the search query's LEFT JOIN chain. -/
structure SearchJoin where
  ar : Option ArtistRecordRow
  a : Option ArtistRow
  gr : Option GenreRecordRow
  g : Option GenreRow
  l : Option LabelRow
deriving DecidableEq

/-- LEFT JOIN semantics: all matching right rows, or a single NULL row
when none match. -/
def leftMatches {α : Type} (p : α → Bool) (rows : List α) : List (Option α) :=
  match rows.filter p with
  | [] => [none]
  | xs => xs.map some

/-- The joined rows the search statement produces for one base record
row.  A NULL artist_record (resp. genre_record) side makes the artist
(resp. genre) side NULL as well, and the label side is NULL when the
record's label_id is NULL. -/
def searchJoins (db : DB) (r : RecordRow) : List SearchJoin :=
  (leftMatches (fun ar : ArtistRecordRow => ar.recordId == r.id) db.artistRecord).flatMap
    (fun oar : Option ArtistRecordRow =>
    (match oar with
     | none => ([none] : List (Option ArtistRow))
     | some ar => leftMatches (fun a : ArtistRow => a.id == ar.artistId) db.artists).flatMap
      (fun oa : Option ArtistRow =>
      (leftMatches (fun gr : GenreRecordRow => gr.recordId == r.id) db.genreRecord).flatMap
        (fun ogr : Option GenreRecordRow =>
        (match ogr with
         | none => ([none] : List (Option GenreRow))
         | some gr => leftMatches (fun g : GenreRow => g.id == gr.genreId) db.genres).flatMap
          (fun og : Option GenreRow =>
          (match r.labelId with
           | none => ([none] : List (Option LabelRow))
           | some lid => leftMatches (fun lrow : LabelRow => lrow.id == lid) db.labels).map
            (fun ol : Option LabelRow =>
            { ar := oar, a := oa, gr := ogr, g := og, l := ol })))))

/-- The `query` condition: title OR notes OR catalog_number. -/
def searchCondQuery (pat : String) (r : RecordRow) (_j : SearchJoin) : Bool :=
  ilikeSub r.title pat || optIlikeSub r.notes pat || optIlikeSub r.catalogNumber pat

/-- The `artist` condition: joined artist name. -/
def searchCondArtist (pat : String) (_r : RecordRow) (j : SearchJoin) : Bool :=
  match j.a with
  | some a => ilikeSub a.name pat
  | none => false

/-- The `genre` condition: joined genre name. -/
def searchCondGenre (pat : String) (_r : RecordRow) (j : SearchJoin) : Bool :=
  match j.g with
  | some g => ilikeSub g.name pat
  | none => false

/-- The `label` condition: joined label name. -/
def searchCondLabel (pat : String) (_r : RecordRow) (j : SearchJoin) : Bool :=
  match j.l with
  | some lrow => ilikeSub lrow.name pat
  | none => false

/-- The `location` condition: the record's storage_location. -/
def searchCondLocation (pat : String) (r : RecordRow) (_j : SearchJoin) : Bool :=
  optIlikeSub r.storageLocation pat

/-- The dynamically built condition list: one ANDed condition per
non-empty parameter, in the order the Go code appends them. -/
def searchConditions (query artist genre label location : String) :
    List (RecordRow → SearchJoin → Bool) :=
  (if query != "" then [searchCondQuery query] else [])
  ++ (if artist != "" then [searchCondArtist artist] else [])
  ++ (if genre != "" then [searchCondGenre genre] else [])
  ++ (if label != "" then [searchCondLabel label] else [])
  ++ (if location != "" then [searchCondLocation location] else [])

/-- The per-result hydration loop of `Search` (and `ListByUserID`):
artists, genres, and — when the scanned label id is non-zero — the label.
Tracks are never loaded on this path. -/
def hydrateSearchRecord (db : DB) (rec : Record) : Except String Record :=
  let rec1 := { rec with Artists := loadArtists db rec.ID, Genres := loadGenres db rec.ID }
  if rec1.LabelID != 0 then
    match loadLabel db rec1.LabelID with
    | Except.error e => Except.error e
    | Except.ok lab => Except.ok { rec1 with Label := some lab }
  else Except.ok rec1

/-- Hydrating every scanned row in order, failing on the first failure. -/
def hydrateSearchRecords (db : DB) : List Record → Except String (List Record)
  | [] => Except.ok []
  | r :: rs =>
    match hydrateSearchRecord db r with
    | Except.error e => Except.error e
    | Except.ok r1 =>
      match hydrateSearchRecords db rs with
      | Except.error e => Except.error e
      | Except.ok rs1 => Except.ok (r1 :: rs1)

/-- `RecordService.Search`: scope by user id, apply the dynamic ANDed
conditions over the joined rows (DISTINCT over base rows), order by title,
then hydrate. -/
def RecordService.Search (db : DB) (userID : Nat)
    (query artist genre label location : String) : Except String (List Record) :=
  let conds := searchConditions query artist genre label location
  let base := List.insertionSort recordRowTitleLe
    (db.records.filter (fun r => r.userId == userID
       && (searchJoins db r).any (fun j => conds.all (fun c => c r j))))
  hydrateSearchRecords db (base.map rowToRecordBase)

/-- A small database for exercising the all-empty search: two records for
user 1 and one for user 2. -/
def dbSearchW : DB :=
  { DB.empty with records :=
      [{ id := 1, title := "B", releaseYear := none, catalogNumber := none, condition := none,
         notes := none, coverImageUrl := none, storageLocation := none, userId := 1,
         labelId := none, createdAt := 0, updatedAt := 0 },
       { id := 2, title := "A", releaseYear := none, catalogNumber := none, condition := none,
         notes := none, coverImageUrl := none, storageLocation := none, userId := 1,
         labelId := none, createdAt := 0, updatedAt := 0 },
       { id := 3, title := "C", releaseYear := none, catalogNumber := none, condition := none,
         notes := none, coverImageUrl := none, storageLocation := none, userId := 2,
         labelId := none, createdAt := 0, updatedAt := 0 }] }

/-! ### Loader lemmas shared by the read-path claims -/
theorem loadArtists_sorted (db : DB) (recordID : Nat) :
    List.Sorted artistLe (loadArtists db recordID) :=
  List.sorted_insertionSort artistLe _

theorem mem_loadArtists (db : DB) (recordID : Nat) (x : Artist) :
    x ∈ loadArtists db recordID ↔
      ∃ ar, ar ∈ db.artistRecord ∧ ar.recordId = recordID
        ∧ ∃ a, a ∈ db.artists ∧ a.id = ar.artistId ∧ x = artistFromJoin a ar.role := by
  unfold loadArtists
  rw [List.mem_insertionSort]
  simp only [List.mem_flatMap, List.mem_map, List.mem_filter, beq_iff_eq]
  constructor
  · rintro ⟨ar, ⟨harmem, harrec⟩, a, ⟨hamem, haid⟩, hx⟩
    exact ⟨ar, harmem, harrec, a, hamem, haid, hx.symm⟩
  · rintro ⟨ar, harmem, harrec, a, hamem, haid, hx⟩
    exact ⟨ar, ⟨harmem, harrec⟩, a, ⟨hamem, haid⟩, hx.symm⟩

theorem loadGenres_sorted (db : DB) (recordID : Nat) :
    List.Sorted genreLe (loadGenres db recordID) :=
  List.sorted_insertionSort genreLe _

theorem mem_loadGenres (db : DB) (recordID : Nat) (x : Genre) :
    x ∈ loadGenres db recordID ↔
      ∃ gr, gr ∈ db.genreRecord ∧ gr.recordId = recordID
        ∧ ∃ g, g ∈ db.genres ∧ g.id = gr.genreId ∧ x = genreFromRow g := by
  unfold loadGenres
  rw [List.mem_insertionSort]
  simp only [List.mem_flatMap, List.mem_map, List.mem_filter, beq_iff_eq]
  constructor
  · rintro ⟨gr, ⟨hgrmem, hgrrec⟩, g, ⟨hgmem, hgid⟩, hx⟩
    exact ⟨gr, hgrmem, hgrrec, g, hgmem, hgid, hx.symm⟩
  · rintro ⟨gr, hgrmem, hgrrec, g, hgmem, hgid, hx⟩
    exact ⟨gr, ⟨hgrmem, hgrrec⟩, g, ⟨hgmem, hgid⟩, hx.symm⟩

theorem mem_loadTracks (db : DB) (recordID : Nat) (t : Track) :
    t ∈ loadTracks db recordID ↔
      ∃ trow, trow ∈ db.tracks ∧ trow.recordId = recordID ∧ t = trackFromRow recordID trow := by
  unfold loadTracks
  simp only [List.mem_map, List.mem_insertionSort, List.mem_filter, beq_iff_eq]
  constructor
  · rintro ⟨trow, ⟨hmem, hrec⟩, ht⟩
    exact ⟨trow, hmem, hrec, ht.symm⟩
  · rintro ⟨trow, hmem, hrec, ht⟩
    exact ⟨trow, ⟨hmem, hrec⟩, ht.symm⟩

theorem loadTracks_position_ascending (db : DB) (recordID : Nat) :
    List.Pairwise
      (fun t1 t2 => charsLe t1.Position.data t2.Position.data = true ∨ t2.Position = "")
      (loadTracks db recordID) := by
  unfold loadTracks
  rw [List.pairwise_map]
  apply List.Pairwise.imp ?_ (List.sorted_insertionSort trackRowLe _)
  intro a b hle
  unfold trackRowLe at hle
  cases ha : a.position with
  | none =>
    cases hb : b.position with
    | none => right; simp [trackFromRow, hb]
    | some y => rw [ha, hb] at hle; simp [posLe] at hle
  | some x =>
    cases hb : b.position with
    | none => right; simp [trackFromRow, hb]
    | some y =>
      left
      rw [ha, hb] at hle
      simpa [trackFromRow, ha, hb] using hle

/-! ### Claim C7: GetByID assembles the full aggregate or fails whole -/
/-- C7: for an existing record id, `GetByID` returns the base row's fields
with the artists (with their artist_record role) sorted ascending by
artist name, the genres sorted ascending by name, the tracks ordered
ascending by the lexicographic position string (a track with a NULL or
empty position sorts at the end), and the label exactly when the stored
label_id is set; when the referenced label row is missing, the label
sub-load fails and the whole read returns the error instead of a partial
record.  (In this embedding the artist/genre/track loads are total, so the
label load is the one sub-load that can fail.) -/
theorem recordGetByID_spec (db : DB) (id : Nat) (row : RecordRow)
    (hfind : db.records.find? (fun r => r.id == id) = some row) :
    (∀ rec, RecordService.GetByID db id = Except.ok rec →
      (rec.ID = row.id ∧ rec.Title = row.title ∧ rec.ReleaseYear = row.releaseYear.getD 0
        ∧ rec.CatalogNumber = row.catalogNumber.getD "" ∧ rec.Condition = row.condition.getD ""
        ∧ rec.Notes = row.notes.getD "" ∧ rec.CoverImageURL = row.coverImageUrl.getD ""
        ∧ rec.StorageLocation = row.storageLocation.getD "" ∧ rec.UserID = row.userId
        ∧ rec.LabelID = row.labelId.getD 0)
      ∧ (List.Sorted artistLe rec.Artists
          ∧ ∀ x, x ∈ rec.Artists ↔ ∃ ar, ar ∈ db.artistRecord ∧ ar.recordId = id
              ∧ ∃ a, a ∈ db.artists ∧ a.id = ar.artistId ∧ x = artistFromJoin a ar.role)
      ∧ (List.Sorted genreLe rec.Genres
          ∧ ∀ x, x ∈ rec.Genres ↔ ∃ gr, gr ∈ db.genreRecord ∧ gr.recordId = id
              ∧ ∃ g, g ∈ db.genres ∧ g.id = gr.genreId ∧ x = genreFromRow g)
      ∧ (List.Pairwise
            (fun t1 t2 => charsLe t1.Position.data t2.Position.data = true ∨ t2.Position = "")
            rec.Tracks
          ∧ ∀ t, t ∈ rec.Tracks ↔ ∃ trow, trow ∈ db.tracks ∧ trow.recordId = id
              ∧ t = trackFromRow id trow)
      ∧ (row.labelId = none → rec.Label = none)
      ∧ (∀ lid lrow, row.labelId = some lid →
            db.labels.find? (fun l => l.id == lid) = some lrow →
            rec.Label = some (labelFromRow lrow)))
    ∧ (∀ lid, row.labelId = some lid → db.labels.find? (fun l => l.id == lid) = none →
        RecordService.GetByID db id = Except.error "sql: no rows in result set") := by
  have hgall : RecordService.GetByID db id =
      (match row.labelId with
       | some _ =>
         match loadLabel db ((rowToRecordBase row).LabelID) with
         | Except.error e => Except.error e
         | Except.ok lab =>
           Except.ok { rowToRecordBase row with
                       Artists := loadArtists db id, Genres := loadGenres db id,
                       Tracks := loadTracks db id, Label := some lab }
       | none => Except.ok { rowToRecordBase row with
                             Artists := loadArtists db id, Genres := loadGenres db id,
                             Tracks := loadTracks db id }) := by
    unfold RecordService.GetByID
    rw [hfind]
  constructor
  · intro rec hok
    have hrec : rec = { rowToRecordBase row with
                        Artists := loadArtists db id, Genres := loadGenres db id,
                        Tracks := loadTracks db id, Label := rec.Label }
        ∧ ((row.labelId = none → rec.Label = none)
            ∧ (∀ lid lrow, row.labelId = some lid →
                db.labels.find? (fun l => l.id == lid) = some lrow →
                rec.Label = some (labelFromRow lrow))) := by
      rw [hgall] at hok
      cases hl : row.labelId with
      | none =>
        rw [hl] at hok
        simp only [Except.ok.injEq] at hok
        subst hok
        refine ⟨rfl, fun _ => rfl, ?_⟩
        intro lid lrow hcontra hfl
        cases hcontra
      | some lid0 =>
        rw [hl] at hok
        cases hlab : loadLabel db ((rowToRecordBase row).LabelID) with
        | error e => rw [hlab] at hok; cases hok
        | ok lab =>
          rw [hlab] at hok
          simp only [Except.ok.injEq] at hok
          subst hok
          refine ⟨rfl, ?_, ?_⟩
          · intro hnone
            cases hnone
          · intro lid lrow hsome hfl
            have hlid : lid0 = lid := Option.some.inj hsome
            subst hlid
            have hLID : (rowToRecordBase row).LabelID = lid0 := by
              simp [rowToRecordBase, hl]
            have h3 : loadLabel db lid0 = Except.ok lab := by
              rw [← hLID]
              exact hlab
            unfold loadLabel at h3
            rw [hfl] at h3
            have hlab2 : lab = labelFromRow lrow := (Except.ok.inj h3).symm
            simp [hlab2]
    obtain ⟨hrec, hlabels⟩ := hrec
    refine ⟨?_, ?_, ?_, ?_, hlabels.1, hlabels.2⟩
    · rw [hrec]
      simp [rowToRecordBase]
    · constructor
      · rw [hrec]; exact loadArtists_sorted db id
      · intro x; rw [hrec]; exact mem_loadArtists db id x
    · constructor
      · rw [hrec]; exact loadGenres_sorted db id
      · intro x; rw [hrec]; exact mem_loadGenres db id x
    · constructor
      · rw [hrec]; exact loadTracks_position_ascending db id
      · intro t; rw [hrec]; exact mem_loadTracks db id t
  · intro lid hsome hnone
    rw [hgall, hsome]
    have : (rowToRecordBase row).LabelID = lid := by
      simp [rowToRecordBase, hsome]
    unfold loadLabel
    rw [this, hnone]

/-! ### List helpers for the update and search claims -/
theorem filter_opp_nil {α : Type} (p : α → Bool) (l : List α) :
    (l.filter (fun x => !(p x))).filter p = [] := by
  rw [List.filter_filter, List.filter_eq_nil_iff]
  intro a _
  simp

theorem filter_opp_self {α : Type} (p : α → Bool) (l : List α) :
    (l.filter (fun x => !(p x))).filter (fun x => !(p x)) = l.filter (fun x => !(p x)) := by
  rw [List.filter_filter]
  apply List.filter_congr
  intro a _
  simp

/-- What the track-insertion loop does to the state: every table except
`tracks` is untouched, and `tracks` grows by rows whose record id is the
given one and whose scalar columns are the supplied tracks, in order. -/
theorem insertTracks_tables (now : Int) (recordID : Nat) (ts : List Track) :
    ∀ db : DB,
      (insertTracks now recordID db ts).2.records = db.records
      ∧ (insertTracks now recordID db ts).2.artistRecord = db.artistRecord
      ∧ (insertTracks now recordID db ts).2.genreRecord = db.genreRecord
      ∧ (insertTracks now recordID db ts).2.sessions = db.sessions
      ∧ ∃ newRows : List TrackRow,
          (insertTracks now recordID db ts).2.tracks = db.tracks ++ newRows
          ∧ (∀ t ∈ newRows, t.recordId = recordID)
          ∧ newRows.map (fun t => (t.title, t.duration, t.position))
              = ts.map (fun t => (t.Title, some t.Duration, some t.Position)) := by
  induction ts with
  | nil =>
    intro db
    refine ⟨rfl, rfl, rfl, rfl, [], ?_, ?_, ?_⟩
    · simp [insertTracks]
    · intro x hx
      cases hx
    · simp
  | cons t ts ih =>
    intro db
    simp only [insertTracks]
    obtain ⟨h1, h2, h3, h4, newRows, htracks, hrec, hmap⟩ :=
      ih { db with tracks := db.tracks ++ [{ id := db.nextTrackId, title := t.Title, duration := some t.Duration, position := some t.Position, recordId := recordID, createdAt := now, updatedAt := now }], nextTrackId := db.nextTrackId + 1 }
    refine ⟨by rw [h1], by rw [h2], by rw [h3], by rw [h4],
      ({ id := db.nextTrackId, title := t.Title, duration := some t.Duration, position := some t.Position, recordId := recordID, createdAt := now, updatedAt := now } : TrackRow) :: newRows,
      ?_, ?_, ?_⟩
    · rw [htracks]
      simp
    · intro x hx
      rcases List.mem_cons.mp hx with heq | hmem
      · rw [heq]
      · exact hrec x hmem
    · simp only [List.map_cons, hmap]

/-! ### Claim C4: update replaces the association sets, tracks only when supplied -/
/-- C4: on a record the caller owns, `Update` succeeds and replaces the
artist_record and genre_record sets with exactly the supplied artists
(with their roles) and genres — including with the empty set, in which case
a subsequent artist load returns the empty list — while the track rows are
deleted and reinserted only when the supplied track list is non-empty, and
are exactly as before when it is empty. -/
theorem recordUpdate_replace_semantics (now : Int) (db : DB) (record : Record)
    (hexists : ∃ rrow ∈ db.records, rrow.id = record.ID ∧ rrow.userId = record.UserID) :
    (∃ rec, (RecordService.Update now db record).1 = Except.ok rec)
    ∧ (RecordService.Update now db record).2.artistRecord
        = db.artistRecord.filter (fun ar => !(ar.recordId == record.ID))
          ++ record.Artists.map (fun a =>
               ({ artistId := a.ID, recordId := record.ID, role := some a.Role } : ArtistRecordRow))
    ∧ (RecordService.Update now db record).2.genreRecord
        = db.genreRecord.filter (fun gr => !(gr.recordId == record.ID))
          ++ record.Genres.map (fun g =>
               ({ genreId := g.ID, recordId := record.ID } : GenreRecordRow))
    ∧ (record.Artists = [] → loadArtists (RecordService.Update now db record).2 record.ID = [])
    ∧ (record.Tracks = [] → (RecordService.Update now db record).2.tracks = db.tracks)
    ∧ (record.Tracks ≠ [] →
        (RecordService.Update now db record).2.tracks.filter (fun t => !(t.recordId == record.ID))
            = db.tracks.filter (fun t => !(t.recordId == record.ID))
        ∧ ((RecordService.Update now db record).2.tracks.filter
              (fun t => t.recordId == record.ID)).map (fun t => (t.title, t.duration, t.position))
            = record.Tracks.map (fun t => (t.Title, some t.Duration, some t.Position))) := by
  have hany : db.records.any (fun r => r.id == record.ID && r.userId == record.UserID) = true := by
    rw [List.any_eq_true]
    rcases hexists with ⟨rrow, hmem, hid, huser⟩
    exact ⟨rrow, hmem, by simp [hid, huser]⟩
  have hloadArtists : ∀ db2 : DB, record.Artists = [] →
      db2.artistRecord = db.artistRecord.filter (fun ar => !(ar.recordId == record.ID))
        ++ record.Artists.map (fun a =>
             ({ artistId := a.ID, recordId := record.ID, role := some a.Role } : ArtistRecordRow)) →
      loadArtists db2 record.ID = [] := by
    intro db2 hA hset
    unfold loadArtists
    rw [hset, hA]
    simp only [List.map_nil, List.append_nil]
    rw [filter_opp_nil (fun ar : ArtistRecordRow => ar.recordId == record.ID)]
    rfl
  by_cases htr : record.Tracks = []
  · have hupd : RecordService.Update now db record
        = (Except.ok { record with UpdatedAt := now },
           replaceGenreSet (replaceArtistSet (updateBaseRow now db record) record) record) := by
      unfold RecordService.Update updateTx
      rw [if_pos hany]
      have : record.Tracks.isEmpty = true := List.isEmpty_iff.mpr htr
      rw [if_pos this]
    rw [hupd]
    refine ⟨⟨{ record with UpdatedAt := now }, rfl⟩, rfl, rfl, ?_, ?_, ?_⟩
    · intro hA
      exact hloadArtists _ hA rfl
    · intro _
      rfl
    · intro hcontra
      exact absurd htr hcontra
  · have hne : record.Tracks.isEmpty = false := by
      cases h : record.Tracks.isEmpty with
      | false => rfl
      | true => exact absurd (List.isEmpty_iff.mp h) htr
    obtain ⟨h1, h2, h3, h4, newRows, htracks, hrec, hmap⟩ :=
      insertTracks_tables now record.ID record.Tracks
        (deleteTracksFor
          (replaceGenreSet (replaceArtistSet (updateBaseRow now db record) record) record)
          record.ID)
    have hupd2 : (RecordService.Update now db record).2
        = (insertTracks now record.ID
            (deleteTracksFor
              (replaceGenreSet (replaceArtistSet (updateBaseRow now db record) record) record)
              record.ID) record.Tracks).2 := by
      unfold RecordService.Update updateTx
      rw [if_pos hany, if_neg (by simp [hne])]
    have hupd1 : ∃ rec, (RecordService.Update now db record).1 = Except.ok rec := by
      unfold RecordService.Update updateTx
      rw [if_pos hany, if_neg (by simp [hne])]
      exact ⟨_, rfl⟩
    have hbase : (deleteTracksFor
        (replaceGenreSet (replaceArtistSet (updateBaseRow now db record) record) record)
        record.ID).tracks
        = db.tracks.filter (fun t : TrackRow => !(t.recordId == record.ID)) := rfl
    refine ⟨hupd1, ?_, ?_, ?_, ?_, ?_⟩
    · rw [hupd2, h2]; rfl
    · rw [hupd2, h3]; rfl
    · intro hA
      apply hloadArtists _ hA
      rw [hupd2, h2]; rfl
    · intro hcontra
      exact absurd hcontra htr
    · intro _
      constructor
      · rw [hupd2, htracks, List.filter_append, hbase,
          filter_opp_self (fun t : TrackRow => t.recordId == record.ID)]
        have hnil : newRows.filter (fun t : TrackRow => !(t.recordId == record.ID)) = [] := by
          rw [List.filter_eq_nil_iff]
          intro t ht
          simp [hrec t ht]
        rw [hnil, List.append_nil]
      · rw [hupd2, htracks, List.filter_append, hbase,
          filter_opp_nil (fun t : TrackRow => t.recordId == record.ID)]
        have hall : newRows.filter (fun t : TrackRow => t.recordId == record.ID) = newRows := by
          rw [List.filter_eq_self]
          intro t ht
          simp [hrec t ht]
        rw [hall, List.nil_append, hmap]

/-- C4 witness: updating an owned record with empty artist and genre lists
and no tracks replaces both association sets by the empty set and leaves
the (empty) track table alone. -/
theorem recordUpdate_replace_semantics_witness :
    (∃ rec, (RecordService.Update 3
        { DB.empty with
          records := [{ id := 1, title := "t", releaseYear := none, catalogNumber := none,
                        condition := none, notes := none, coverImageUrl := none,
                        storageLocation := none, userId := 4, labelId := none,
                        createdAt := 0, updatedAt := 0 }],
          artistRecord := [{ artistId := 9, recordId := 1, role := some "r" }] }
        { ID := 1, Title := "t", UserID := 4 }).1 = Except.ok rec)
    ∧ loadArtists (RecordService.Update 3
        { DB.empty with
          records := [{ id := 1, title := "t", releaseYear := none, catalogNumber := none,
                        condition := none, notes := none, coverImageUrl := none,
                        storageLocation := none, userId := 4, labelId := none,
                        createdAt := 0, updatedAt := 0 }],
          artistRecord := [{ artistId := 9, recordId := 1, role := some "r" }] }
        { ID := 1, Title := "t", UserID := 4 }).2 1 = [] := by
  have h := recordUpdate_replace_semantics 3
    { DB.empty with
      records := [{ id := 1, title := "t", releaseYear := none, catalogNumber := none,
                    condition := none, notes := none, coverImageUrl := none,
                    storageLocation := none, userId := 4, labelId := none,
                    createdAt := 0, updatedAt := 0 }],
      artistRecord := [{ artistId := 9, recordId := 1, role := some "r" }] }
    { ID := 1, Title := "t", UserID := 4 }
    ⟨{ id := 1, title := "t", releaseYear := none, catalogNumber := none,
       condition := none, notes := none, coverImageUrl := none,
       storageLocation := none, userId := 4, labelId := none,
       createdAt := 0, updatedAt := 0 }, by decide, by decide, by decide⟩
  exact ⟨h.1, h.2.2.2.1 rfl⟩

/-! ### Claim C1: create with a dangling reference persists nothing -/
/-- Helper: a referenced artist with no stored row makes the artist
pre-check loop fail. -/
theorem checkArtistsExist_error (db : DB) (l : List Artist) (a : Artist)
    (hmem : a ∈ l) (hmiss : ∀ row ∈ db.artists, ¬ row.id = a.ID) :
    ∃ e, checkArtistsExist db l = Except.error e := by
  induction l with
  | nil => cases hmem
  | cons x xs ih =>
    unfold checkArtistsExist
    by_cases hx : db.artists.any (fun row => row.id == x.ID) = true
    · rw [if_pos hx]
      rcases List.mem_cons.mp hmem with heq | hmem2
      · exfalso
        subst heq
        rcases List.any_eq_true.mp hx with ⟨row, hrow, hid⟩
        exact hmiss row hrow (beq_iff_eq.mp hid)
      · exact ih hmem2
    · rw [if_neg hx]
      exact ⟨_, rfl⟩

/-- Helper: a referenced genre with no stored row makes the genre
pre-check loop fail. -/
theorem checkGenresExist_error (db : DB) (l : List Genre) (g : Genre)
    (hmem : g ∈ l) (hmiss : ∀ row ∈ db.genres, ¬ row.id = g.ID) :
    ∃ e, checkGenresExist db l = Except.error e := by
  induction l with
  | nil => cases hmem
  | cons x xs ih =>
    unfold checkGenresExist
    by_cases hx : db.genres.any (fun row => row.id == x.ID) = true
    · rw [if_pos hx]
      rcases List.mem_cons.mp hmem with heq | hmem2
      · exfalso
        subst heq
        rcases List.any_eq_true.mp hx with ⟨row, hrow, hid⟩
        exact hmiss row hrow (beq_iff_eq.mp hid)
      · exact ih hmem2
    · rw [if_neg hx]
      exact ⟨_, rfl⟩

/-- C1: a record creation input referencing a nonexistent artist id, genre
id, or non-zero label id makes `Create` fail, and the storage state after
the failed call is exactly the state before it (nothing persisted in any
table). -/
theorem recordCreate_missing_reference_rollback (now : Int) (db : DB) (record : Record)
    (h : (∃ a ∈ record.Artists, ∀ row ∈ db.artists, ¬ row.id = a.ID)
       ∨ (∃ g ∈ record.Genres, ∀ row ∈ db.genres, ¬ row.id = g.ID)
       ∨ (¬ record.LabelID = 0 ∧ ∀ row ∈ db.labels, ¬ row.id = record.LabelID)) :
    ∃ e, RecordService.Create now db record = (Except.error e, db) := by
  have htx : ∃ e, createTx now db record = Except.error e := by
    cases hca : checkArtistsExist db record.Artists with
    | error e => exact ⟨e, by unfold createTx; rw [hca]⟩
    | ok _ =>
      cases hcg : checkGenresExist db record.Genres with
      | error e => exact ⟨e, by unfold createTx; rw [hca, hcg]⟩
      | ok _ =>
        rcases h with ⟨a, hamem, hamiss⟩ | ⟨g, hgmem, hgmiss⟩ | ⟨hl0, hlmiss⟩
        · rcases checkArtistsExist_error db record.Artists a hamem hamiss with ⟨e, he⟩
          rw [he] at hca
          cases hca
        · rcases checkGenresExist_error db record.Genres g hgmem hgmiss with ⟨e, he⟩
          rw [he] at hcg
          cases hcg
        · have hcl : checkLabelExists db record.LabelID
              = Except.error ("label with ID " ++ toString record.LabelID ++ " does not exist") := by
            unfold checkLabelExists
            have h1 : (record.LabelID != 0) = true := by
              simpa using hl0
            rw [if_pos h1]
            have h2 : db.labels.any (fun row => row.id == record.LabelID) = false := by
              rw [List.any_eq_false]
              intro row hrow
              simpa using hlmiss row hrow
            rw [h2]
            simp
          exact ⟨_, by unfold createTx; rw [hca, hcg, hcl]⟩
  rcases htx with ⟨e, he⟩
  exact ⟨e, by unfold RecordService.Create; rw [he]⟩

/-- C1 witness: creating a record that references artist 3 in an empty
database fails and leaves the database empty. -/
theorem recordCreate_missing_reference_rollback_witness :
    ∃ e, RecordService.Create 0 DB.empty { Title := "x", UserID := 1, Artists := [{ ID := 3 }] }
      = (Except.error e, DB.empty) :=
  recordCreate_missing_reference_rollback 0 DB.empty
    { Title := "x", UserID := 1, Artists := [{ ID := 3 }] }
    (Or.inl ⟨{ ID := 3 }, by decide, by decide⟩)

/-! ### Claim C3: update with a mismatched owner changes nothing -/
/-- C3: when the stored row with the record's id belongs to a different
user, `Update` reports the "not found or does not belong to user" error
and the entire storage state is exactly as before the call. -/
theorem recordUpdate_wrong_owner_rollback (now : Int) (db : DB) (record : Record)
    (row : RecordRow) (hmem : row ∈ db.records) (hid : row.id = record.ID)
    (huser : ¬ row.userId = record.UserID)
    (hnodup : (db.records.map (fun r => r.id)).Nodup) :
    RecordService.Update now db record
      = (Except.error "record not found or does not belong to user", db) := by
  have hany : db.records.any (fun r => r.id == record.ID && r.userId == record.UserID)
      = false := by
    rw [List.any_eq_false]
    intro r hr
    simp only [Bool.and_eq_true, beq_iff_eq, not_and]
    intro hrid
    have hreq : r = row :=
      List.inj_on_of_nodup_map hnodup hr hmem (by rw [hrid, hid])
    rw [hreq]
    exact huser
  have htx : updateTx now db record = Except.error "record not found or does not belong to user" := by
    unfold updateTx
    rw [hany]
    simp
  unfold RecordService.Update
  rw [htx]

/-- C3 witness: updating record 1 (owned by user 1) as user 2 fails and
changes nothing. -/
theorem recordUpdate_wrong_owner_rollback_witness :
    RecordService.Update 9
      { DB.empty with records :=
          [{ id := 1, title := "t", releaseYear := none, catalogNumber := none,
             condition := none, notes := none, coverImageUrl := none,
             storageLocation := none, userId := 1, labelId := none,
             createdAt := 0, updatedAt := 0 }] }
      { ID := 1, Title := "t2", UserID := 2 }
      = (Except.error "record not found or does not belong to user",
         { DB.empty with records :=
            [{ id := 1, title := "t", releaseYear := none, catalogNumber := none,
               condition := none, notes := none, coverImageUrl := none,
               storageLocation := none, userId := 1, labelId := none,
               createdAt := 0, updatedAt := 0 }] }) :=
  recordUpdate_wrong_owner_rollback 9 _ _
    { id := 1, title := "t", releaseYear := none, catalogNumber := none,
      condition := none, notes := none, coverImageUrl := none,
      storageLocation := none, userId := 1, labelId := none,
      createdAt := 0, updatedAt := 0 }
    (by decide) (by decide) (by decide) (by decide)

/-- C7 witness: with the referenced label row missing, the whole read
fails with the label sub-load's error. -/
theorem recordGetByID_spec_witness :
    RecordService.GetByID dbBadLabel 2 = Except.error "sql: no rows in result set" :=
  (recordGetByID_spec dbBadLabel 2 rowBadLabel rfl).2 5 rfl rfl

/-! ### Claim C8: ownership guard on entity update and delete -/
/-- C8 counterexample: deleting artist 1 as user 2 (wrong owner) affects
zero rows — the state is unchanged and the table is nonempty — yet the call
returns success, so the zero-row case is silently ignored, contradicting
the claim that it is reported as an error. -/
theorem entityDelete_zero_rows_silent_success :
    (ArtistService.Delete dbOneArtist 1 2).1 = Except.ok ()
    ∧ (ArtistService.Delete dbOneArtist 1 2).2 = dbOneArtist
    ∧ dbOneArtist.artists.length = 1 := ⟨rfl, rfl, rfl⟩

/-- C8 amended: for each entity service, a zero-row `Update` (wrong owner
or absent row) is reported as a not-found error with the state unchanged,
and `Delete` only ever removes rows whose id and user_id both match — but a
`Delete` affecting zero rows returns success with the state unchanged
rather than reporting the mistake. -/
theorem entityServices_ownership_guard (now : Int) (db : DB) (a : Artist) (g : Genre)
    (lb : Label) (id userID : Nat) :
    ((∀ row ∈ db.artists, ¬ (row.id = a.ID ∧ row.userId = a.UserID)) →
       ArtistService.Update now db a = (Except.error "sql: no rows in result set", db))
    ∧ ((∀ row ∈ db.genres, ¬ (row.id = g.ID ∧ row.userId = g.UserID)) →
       GenreService.Update now db g = (Except.error "sql: no rows in result set", db))
    ∧ ((∀ row ∈ db.labels, ¬ (row.id = lb.ID ∧ row.userId = lb.UserID)) →
       LabelService.Update now db lb = (Except.error "sql: no rows in result set", db))
    ∧ ((∀ row ∈ db.artists, ¬ (row.id = id ∧ row.userId = userID)) →
       ArtistService.Delete db id userID = (Except.ok (), db))
    ∧ (∀ row ∈ db.artists, row ∈ (ArtistService.Delete db id userID).2.artists
         ∨ (row.id = id ∧ row.userId = userID))
    ∧ ((∀ row ∈ db.genres, ¬ (row.id = id ∧ row.userId = userID)) →
       GenreService.Delete db id userID = (Except.ok (), db))
    ∧ (∀ row ∈ db.genres, row ∈ (GenreService.Delete db id userID).2.genres
         ∨ (row.id = id ∧ row.userId = userID))
    ∧ ((∀ row ∈ db.labels, ¬ (row.id = id ∧ row.userId = userID)) →
       LabelService.Delete db id userID = (Except.ok (), db))
    ∧ (∀ row ∈ db.labels, row ∈ (LabelService.Delete db id userID).2.labels
         ∨ (row.id = id ∧ row.userId = userID)) := by
  refine ⟨?_, ?_, ?_, ?_, ?_, ?_, ?_, ?_, ?_⟩
  · intro h
    have hfalse : db.artists.any (fun row => row.id == a.ID && row.userId == a.UserID) = false := by
      rw [List.any_eq_false]
      intro row hrow
      have := h row hrow
      simp only [Bool.and_eq_true, beq_iff_eq]
      tauto
    simp [ArtistService.Update, hfalse]
  · intro h
    have hfalse : db.genres.any (fun row => row.id == g.ID && row.userId == g.UserID) = false := by
      rw [List.any_eq_false]
      intro row hrow
      have := h row hrow
      simp only [Bool.and_eq_true, beq_iff_eq]
      tauto
    simp [GenreService.Update, hfalse]
  · intro h
    have hfalse : db.labels.any (fun row => row.id == lb.ID && row.userId == lb.UserID) = false := by
      rw [List.any_eq_false]
      intro row hrow
      have := h row hrow
      simp only [Bool.and_eq_true, beq_iff_eq]
      tauto
    simp [LabelService.Update, hfalse]
  · intro h
    have hkeep : db.artists.filter (fun row => !(row.id == id && row.userId == userID))
        = db.artists := by
      rw [List.filter_eq_self]
      intro row hrow
      have := h row hrow
      simp only [Bool.not_eq_true', Bool.and_eq_false_iff]
      simp only [beq_eq_false_iff_ne, ne_eq]
      tauto
    unfold ArtistService.Delete
    rw [hkeep]
  · intro row hrow
    by_cases hmatch : (row.id == id && row.userId == userID) = true
    · right
      simpa using hmatch
    · left
      unfold ArtistService.Delete
      simp only [List.mem_filter]
      exact ⟨hrow, by simp [hmatch]⟩
  · intro h
    have hkeep : db.genres.filter (fun row => !(row.id == id && row.userId == userID))
        = db.genres := by
      rw [List.filter_eq_self]
      intro row hrow
      have := h row hrow
      simp only [Bool.not_eq_true', Bool.and_eq_false_iff]
      simp only [beq_eq_false_iff_ne, ne_eq]
      tauto
    unfold GenreService.Delete
    rw [hkeep]
  · intro row hrow
    by_cases hmatch : (row.id == id && row.userId == userID) = true
    · right
      simpa using hmatch
    · left
      unfold GenreService.Delete
      simp only [List.mem_filter]
      exact ⟨hrow, by simp [hmatch]⟩
  · intro h
    have hkeep : db.labels.filter (fun row => !(row.id == id && row.userId == userID))
        = db.labels := by
      rw [List.filter_eq_self]
      intro row hrow
      have := h row hrow
      simp only [Bool.not_eq_true', Bool.and_eq_false_iff]
      simp only [beq_eq_false_iff_ne, ne_eq]
      tauto
    unfold LabelService.Delete
    rw [hkeep]
  · intro row hrow
    by_cases hmatch : (row.id == id && row.userId == userID) = true
    · right
      simpa using hmatch
    · left
      unfold LabelService.Delete
      simp only [List.mem_filter]
      exact ⟨hrow, by simp [hmatch]⟩

/-- C8 amended witness: concrete zero-row update and delete calls. -/
theorem entityServices_ownership_guard_witness :
    ArtistService.Update 5 DB.empty { ID := 1, UserID := 2 }
      = (Except.error "sql: no rows in result set", DB.empty)
    ∧ ArtistService.Delete DB.empty 1 2 = (Except.ok (), DB.empty) := by
  have h := entityServices_ownership_guard 5 DB.empty { ID := 1, UserID := 2 }
    { ID := 1, UserID := 2 } { ID := 1, UserID := 2 } 1 2
  exact ⟨h.1 (by decide), h.2.2.2.1 (by decide)⟩

/-! ### Claim C2: expired-session lookup deletes the row and fails twice -/
/-- Helper: when no stored session carries the token, `GetByToken` returns
the driver's not-found error and leaves the state alone. -/
theorem sessionGetByToken_of_find_none (now : Int) (db : DB) (token : String)
    (h : db.sessions.find? (fun s => s.token == token) = none) :
    SessionService.GetByToken now db token = (Except.error "sql: no rows in result set", db) := by
  unfold SessionService.GetByToken
  rw [h]

/-- C2: for every stored session whose expiry is in the past, `GetByToken`
on its token fails (never returns the session data) and removes the row, so
a second `GetByToken` on the same token fails with the not-found result and
changes nothing. -/
theorem sessionGetByToken_expired_lazy_delete (now : Int) (db : DB) (token : String)
    (row : SessionRow)
    (hfind : db.sessions.find? (fun s => s.token == token) = some row)
    (hexp : row.expiresAt < now)
    (hnodup : (db.sessions.map (fun s => s.token)).Nodup) :
    SessionService.GetByToken now db token = (Except.error "session expired", SessionService.Delete db row.id)
    ∧ (∀ s ∈ (SessionService.GetByToken now db token).2.sessions, ¬ s.token = token)
    ∧ SessionService.GetByToken now ((SessionService.GetByToken now db token).2) token
        = (Except.error "sql: no rows in result set", (SessionService.GetByToken now db token).2) := by
  have hrowmem : row ∈ db.sessions := List.mem_of_find?_eq_some hfind
  have hrowtok : row.token = token := by
    have := List.find?_some hfind
    simpa using this
  have hcall1 : SessionService.GetByToken now db token
      = (Except.error "session expired", SessionService.Delete db row.id) := by
    unfold SessionService.GetByToken
    rw [hfind]
    simp [hexp]
  have hnotok : ∀ s ∈ (SessionService.GetByToken now db token).2.sessions, ¬ s.token = token := by
    intro s hs hstok
    rw [hcall1] at hs
    simp only [SessionService.Delete, List.mem_filter] at hs
    obtain ⟨hsmem, hsid⟩ := hs
    have hseq : s = row :=
      List.inj_on_of_nodup_map hnodup hsmem hrowmem (by rw [hstok, hrowtok])
    rw [hseq] at hsid
    simp at hsid
  refine ⟨hcall1, hnotok, ?_⟩
  have hfind2 : ((SessionService.GetByToken now db token).2.sessions).find?
      (fun s => s.token == token) = none := by
    rw [List.find?_eq_none]
    intro s hs
    simpa using hnotok s hs
  exact sessionGetByToken_of_find_none now _ token hfind2

/-- C2 witness: a concrete database holding one expired session. -/
theorem sessionGetByToken_expired_lazy_delete_witness :
    SessionService.GetByToken 10
        { DB.empty with sessions :=
          [{ id := 7, userId := 1, token := "tok", data := "", ipAddress := "", userAgent := "",
             expiresAt := 5, createdAt := 0, updatedAt := 0 }] } "tok"
        = (Except.error "session expired",
           SessionService.Delete
             { DB.empty with sessions :=
               [{ id := 7, userId := 1, token := "tok", data := "", ipAddress := "", userAgent := "",
                  expiresAt := 5, createdAt := 0, updatedAt := 0 }] } 7) :=
  (sessionGetByToken_expired_lazy_delete 10
    { DB.empty with sessions :=
      [{ id := 7, userId := 1, token := "tok", data := "", ipAddress := "", userAgent := "",
         expiresAt := 5, createdAt := 0, updatedAt := 0 }] } "tok"
    { id := 7, userId := 1, token := "tok", data := "", ipAddress := "", userAgent := "",
      expiresAt := 5, createdAt := 0, updatedAt := 0 }
    (by decide) (by decide) (by decide)).1

/-! ### Claim C6: the value returned by session Create -/
/-- C6: at a concrete input, `SessionService.Create` persists the row with
`expires_at = now + ttl` and a token built from the 32 random bytes, but the
returned `Session` carries `ExpiresAt` equal to the row's `updated_at`
(the creation time), not `now + ttl`: the variable holding the expiry is
clobbered when scanning `RETURNING id, created_at, updated_at`. -/
theorem sessionCreate_returned_expiresAt_divergence :
    ((SessionService.Create 1000 DB.empty 1 "d" "ip" "ua" 86400 (List.replicate 32 0)).2.sessions.map
        (fun s => s.expiresAt) = [87400])
    ∧ (SessionService.Create 1000 DB.empty 1 "d" "ip" "ua" 86400 (List.replicate 32 0)).1.Token
        = base64UrlEncode (List.replicate 32 0)
    ∧ (SessionService.Create 1000 DB.empty 1 "d" "ip" "ua" 86400 (List.replicate 32 0)).1.ExpiresAt
        = 1000
    ∧ ¬ (SessionService.Create 1000 DB.empty 1 "d" "ip" "ua" 86400 (List.replicate 32 0)).1.ExpiresAt
        = 87400 := by
  refine ⟨rfl, rfl, rfl, by decide⟩

/-! ### Claim C9: the genre update/delete endpoints are storage no-ops -/
/-- C9: `GenreHandler.UpdateGenre` answers 200 with a "not implemented"
body and `GenreHandler.DeleteGenre` answers 204, and neither changes any
stored state. -/
theorem genreHandler_update_delete_noop (db : DB) :
    (GenreHandler.UpdateGenre db).2 = db
    ∧ (GenreHandler.UpdateGenre db).1.status = 200
    ∧ (GenreHandler.UpdateGenre db).1.body = "\x7b\"status\":\"not implemented\"\x7d\n"
    ∧ (GenreHandler.DeleteGenre db).2 = db
    ∧ (GenreHandler.DeleteGenre db).1.status = 204 :=
  ⟨rfl, rfl, rfl, rfl, rfl⟩

/-! ### Claim C10: refreshing a nonexistent token silently succeeds -/
/-- C10: `SessionService.Refresh` on a token with no matching session row
returns success and changes no stored state, and its result component is
success for every database, so a caller cannot distinguish refreshing a
live session from refreshing a nonexistent one by the result. -/
theorem sessionRefresh_missing_token_silent_success (now : Int) (db : DB) (token : String)
    (duration : Int) (h : ∀ s ∈ db.sessions, ¬ s.token = token) :
    SessionService.Refresh now db token duration = (Except.ok (), db)
    ∧ (∀ db2 : DB, (SessionService.Refresh now db2 token duration).1 = Except.ok ()) := by
  have hmap : ∀ l : List SessionRow, (∀ s ∈ l, ¬ s.token = token) →
      l.map (fun s =>
        if s.token == token then { s with expiresAt := now + duration, updatedAt := now } else s)
      = l := by
    intro l hl
    induction l with
    | nil => rfl
    | cons x xs ih =>
      simp only [List.map_cons]
      have hx : ¬ x.token = token := hl x (by simp)
      rw [if_neg (by simpa using hx), ih (fun s hs => hl s (by simp [hs]))]
  constructor
  · unfold SessionService.Refresh
    rw [hmap db.sessions h]
  · intro db2
    rfl

/-- C10 witness. -/
theorem sessionRefresh_missing_token_silent_success_witness :
    SessionService.Refresh 5 DB.empty "ghost" 100 = (Except.ok (), DB.empty) :=
  (sessionRefresh_missing_token_silent_success 5 DB.empty "ghost" 100 (by decide)).1

/-! ### Lemmas about the search embedding -/
theorem leftMatches_exists {α : Type} (p : α → Bool) (rows : List α) :
    ∃ o, o ∈ leftMatches p rows := by
  unfold leftMatches
  cases h : rows.filter p with
  | nil => exact ⟨none, by simp⟩
  | cons x xs => exact ⟨some x, by simp⟩

/-- Every base row has at least one joined row: a LEFT JOIN never drops
the left side. -/
theorem searchJoins_exists (db : DB) (r : RecordRow) : ∃ j, j ∈ searchJoins db r := by
  obtain ⟨oar, har⟩ :=
    leftMatches_exists (fun ar : ArtistRecordRow => ar.recordId == r.id) db.artistRecord
  obtain ⟨oa, hoa⟩ : ∃ oa, oa ∈ (match oar with
      | none => ([none] : List (Option ArtistRow))
      | some ar => leftMatches (fun a : ArtistRow => a.id == ar.artistId) db.artists) := by
    cases oar with
    | none => exact ⟨none, by simp⟩
    | some ar => exact leftMatches_exists _ _
  obtain ⟨ogr, hogr⟩ :=
    leftMatches_exists (fun gr : GenreRecordRow => gr.recordId == r.id) db.genreRecord
  obtain ⟨og, hog⟩ : ∃ og, og ∈ (match ogr with
      | none => ([none] : List (Option GenreRow))
      | some gr => leftMatches (fun g : GenreRow => g.id == gr.genreId) db.genres) := by
    cases ogr with
    | none => exact ⟨none, by simp⟩
    | some gr => exact leftMatches_exists _ _
  obtain ⟨ol, hol⟩ : ∃ ol, ol ∈ (match r.labelId with
      | none => ([none] : List (Option LabelRow))
      | some lid => leftMatches (fun lrow : LabelRow => lrow.id == lid) db.labels) := by
    cases r.labelId with
    | none => exact ⟨none, by simp⟩
    | some lid => exact leftMatches_exists _ _
  refine ⟨{ ar := oar, a := oa, gr := ogr, g := og, l := ol }, ?_⟩
  unfold searchJoins
  rw [List.mem_flatMap]
  refine ⟨oar, har, ?_⟩
  rw [List.mem_flatMap]
  refine ⟨oa, hoa, ?_⟩
  rw [List.mem_flatMap]
  refine ⟨ogr, hogr, ?_⟩
  rw [List.mem_flatMap]
  refine ⟨og, hog, ?_⟩
  rw [List.mem_map]
  exact ⟨ol, hol, rfl⟩

theorem hydrateSearchRecord_ok (db : DB) (b rec : Record)
    (h : hydrateSearchRecord db b = Except.ok rec) :
    rec.ID = b.ID ∧ rec.UserID = b.UserID ∧ rec.Tracks = b.Tracks
    ∧ rec.LabelID = b.LabelID
    ∧ rec.Artists = loadArtists db b.ID ∧ rec.Genres = loadGenres db b.ID
    ∧ (b.LabelID = 0 → rec.Label = b.Label)
    ∧ (¬ b.LabelID = 0 → ∃ lab, loadLabel db b.LabelID = Except.ok lab ∧ rec.Label = some lab) := by
  unfold hydrateSearchRecord at h
  dsimp only at h
  by_cases h0 : b.LabelID = 0
  · rw [if_neg (by simp [h0])] at h
    simp only [Except.ok.injEq] at h
    subst h
    refine ⟨rfl, rfl, rfl, rfl, rfl, rfl, fun _ => rfl, fun hc => absurd h0 hc⟩
  · rw [if_pos (by simpa [bne_iff_ne] using h0)] at h
    cases hl : loadLabel db b.LabelID with
    | error e => rw [hl] at h; cases h
    | ok lab =>
      rw [hl] at h
      simp only [Except.ok.injEq] at h
      subst h
      exact ⟨rfl, rfl, rfl, rfl, rfl, rfl, fun hc => absurd hc h0, fun _ => ⟨lab, rfl, rfl⟩⟩

theorem hydrateSearchRecords_forall2 (db : DB) :
    ∀ (lst res : List Record), hydrateSearchRecords db lst = Except.ok res →
      List.Forall₂ (fun b x => hydrateSearchRecord db b = Except.ok x) lst res := by
  intro lst
  induction lst with
  | nil =>
    intro res h
    unfold hydrateSearchRecords at h
    simp only [Except.ok.injEq] at h
    subst h
    exact List.Forall₂.nil
  | cons b bs ih =>
    intro res h
    unfold hydrateSearchRecords at h
    cases hb : hydrateSearchRecord db b with
    | error e => rw [hb] at h; cases h
    | ok r1 =>
      rw [hb] at h
      cases hrs : hydrateSearchRecords db bs with
      | error e => rw [hrs] at h; cases h
      | ok rs1 =>
        rw [hrs] at h
        simp only [Except.ok.injEq] at h
        subst h
        exact List.Forall₂.cons hb (ih rs1 hrs)

theorem hydrateSearchRecords_success (db : DB) :
    ∀ lst : List Record,
      (∀ b ∈ lst, ¬ b.LabelID = 0 → ∃ lrow ∈ db.labels, lrow.id = b.LabelID) →
      ∃ res, hydrateSearchRecords db lst = Except.ok res := by
  intro lst
  induction lst with
  | nil => exact fun _ => ⟨[], rfl⟩
  | cons b bs ih =>
    intro hwf
    obtain ⟨res, hres⟩ := ih (fun x hx => hwf x (List.mem_cons_of_mem _ hx))
    have hb : ∃ r1, hydrateSearchRecord db b = Except.ok r1 := by
      unfold hydrateSearchRecord
      dsimp only
      by_cases h0 : b.LabelID = 0
      · rw [if_neg (by simp [h0])]
        exact ⟨_, rfl⟩
      · rw [if_pos (by simpa [bne_iff_ne] using h0)]
        obtain ⟨lrow, hlmem, hlid⟩ := hwf b (List.mem_cons_self b bs) h0
        have hsome : (db.labels.find? (fun l => l.id == b.LabelID)).isSome := by
          rw [List.find?_isSome]
          exact ⟨lrow, hlmem, by simp [hlid]⟩
        cases hf : db.labels.find? (fun l => l.id == b.LabelID) with
        | none => rw [hf] at hsome; cases hsome
        | some lrow2 =>
          have : loadLabel db b.LabelID = Except.ok (labelFromRow lrow2) := by
            unfold loadLabel
            rw [hf]
          rw [this]
          exact ⟨_, rfl⟩
    obtain ⟨r1, hr1⟩ := hb
    refine ⟨r1 :: res, ?_⟩
    unfold hydrateSearchRecords
    rw [hr1, hres]

theorem forall2_mem_right {α β : Type} {R : α → β → Prop} :
    ∀ {l1 : List α} {l2 : List β}, List.Forall₂ R l1 l2 → ∀ x ∈ l2, ∃ b ∈ l1, R b x := by
  intro l1 l2 h
  induction h with
  | nil => intro x hx; cases hx
  | @cons a b as bs hR _ ih =>
    intro x hx
    rcases List.mem_cons.mp hx with heq | hmem
    · exact ⟨a, List.mem_cons_self a as, heq ▸ hR⟩
    · obtain ⟨c, hc, hRc⟩ := ih x hmem
      exact ⟨c, List.mem_cons_of_mem _ hc, hRc⟩

theorem forall2_mem_left {α β : Type} {R : α → β → Prop} :
    ∀ {l1 : List α} {l2 : List β}, List.Forall₂ R l1 l2 → ∀ b ∈ l1, ∃ x ∈ l2, R b x := by
  intro l1 l2 h
  induction h with
  | nil => intro b hb; cases hb
  | @cons a b as bs hR _ ih =>
    intro c hc
    rcases List.mem_cons.mp hc with heq | hmem
    · exact ⟨b, List.mem_cons_self b bs, heq ▸ hR⟩
    · obtain ⟨x, hx, hRx⟩ := ih c hmem
      exact ⟨x, List.mem_cons_of_mem _ hx, hRx⟩

theorem forall2_map_eq {α β γ : Type} {R : α → β → Prop} (f : α → γ) (gm : β → γ)
    (hR : ∀ a b, R a b → f a = gm b) :
    ∀ {l1 : List α} {l2 : List β}, List.Forall₂ R l1 l2 → l1.map f = l2.map gm := by
  intro l1 l2 h
  induction h with
  | nil => rfl
  | cons hab _ ih => simp only [List.map_cons, hR _ _ hab, ih]

/-- The dynamically built condition list behaves as one ANDed condition
per non-empty parameter: passing all conditions is equivalent to passing
each non-empty parameter's condition, and empty parameters impose
nothing. -/
theorem searchConditions_all (q a g l loc : String) (r : RecordRow) (j : SearchJoin) :
    (searchConditions q a g l loc).all (fun c => c r j) = true ↔
      ((¬ q = "" → searchCondQuery q r j = true)
       ∧ (¬ a = "" → searchCondArtist a r j = true)
       ∧ (¬ g = "" → searchCondGenre g r j = true)
       ∧ (¬ l = "" → searchCondLabel l r j = true)
       ∧ (¬ loc = "" → searchCondLocation loc r j = true)) := by
  unfold searchConditions
  by_cases hq : q = "" <;> by_cases ha : a = "" <;> by_cases hg : g = "" <;>
    by_cases hl : l = "" <;> by_cases hloc : loc = "" <;>
      simp [hq, ha, hg, hl, hloc, bne_iff_ne, List.all_append]

/-! ### Claim C5: the search query's scoping, conditions and hydration -/
/-- C5: every search result belongs to the searching user, is hydrated
with artists, genres and (when the label id is set) the label exactly as
in `GetByID`, and never with tracks; the dynamically built WHERE clause is
one ANDed case-insensitive substring condition per non-empty parameter and
nothing for empty ones; with distinct stored ids the result has one row
per stored record that matches; and the all-empty search returns all of
the searching user's records with no duplicates despite the multi-valued
joins. -/
theorem recordSearch_spec (db : DB) (userID : Nat) (q a g l loc : String) :
    (∀ res, RecordService.Search db userID q a g l loc = Except.ok res →
      ∀ rec ∈ res, rec.UserID = userID ∧ rec.Tracks = []
        ∧ rec.Artists = loadArtists db rec.ID ∧ rec.Genres = loadGenres db rec.ID
        ∧ (rec.LabelID = 0 → rec.Label = none)
        ∧ (¬ rec.LabelID = 0 →
            ∃ lab, loadLabel db rec.LabelID = Except.ok lab ∧ rec.Label = some lab))
    ∧ (∀ r j, (searchConditions q a g l loc).all (fun c => c r j) = true ↔
        ((¬ q = "" → searchCondQuery q r j = true)
         ∧ (¬ a = "" → searchCondArtist a r j = true)
         ∧ (¬ g = "" → searchCondGenre g r j = true)
         ∧ (¬ l = "" → searchCondLabel l r j = true)
         ∧ (¬ loc = "" → searchCondLocation loc r j = true)))
    ∧ (∀ res, RecordService.Search db userID q a g l loc = Except.ok res →
        (db.records.map (fun r => r.id)).Nodup →
        ∀ rrow ∈ db.records,
          ((∃ rec ∈ res, rec.ID = rrow.id) ↔
            (rrow.userId = userID ∧ ∃ j ∈ searchJoins db rrow,
              (searchConditions q a g l loc).all (fun c => c rrow j) = true)))
    ∧ (q = "" → a = "" → g = "" → l = "" → loc = "" →
        (∀ rrow ∈ db.records, ∀ lid, rrow.labelId = some lid → ¬ lid = 0 →
            ∃ lrow ∈ db.labels, lrow.id = lid) →
        ∃ res, RecordService.Search db userID q a g l loc = Except.ok res
          ∧ res.map (fun rec => rec.ID)
              = (List.insertionSort recordRowTitleLe
                  (db.records.filter (fun r => r.userId == userID))).map (fun r => r.id)
          ∧ ((db.records.map (fun r => r.id)).Nodup → (res.map (fun rec => rec.ID)).Nodup)) := by
  refine ⟨?_, searchConditions_all q a g l loc, ?_, ?_⟩
  · -- every result row: scoped, trackless, hydrated
    intro res hres rec hrecmem
    unfold RecordService.Search at hres
    obtain ⟨b, hbmem, hb⟩ :=
      forall2_mem_right (hydrateSearchRecords_forall2 db _ res hres) rec hrecmem
    obtain ⟨rid, ruser, rtracks, rlabid, rart, rgen, rlab0, rlabn⟩ :=
      hydrateSearchRecord_ok db b rec hb
    rw [List.mem_map] at hbmem
    obtain ⟨row, hrowmem, hbrow⟩ := hbmem
    rw [List.mem_insertionSort, List.mem_filter] at hrowmem
    obtain ⟨hrowdb, hrowpred⟩ := hrowmem
    rw [Bool.and_eq_true] at hrowpred
    have huser : row.userId = userID := by simpa using hrowpred.1
    subst hbrow
    refine ⟨?_, ?_, ?_, ?_, ?_, ?_⟩
    · rw [ruser]
      simpa [rowToRecordBase] using huser
    · rw [rtracks]
      rfl
    · rw [rart, rid]
    · rw [rgen, rid]
    · intro h0
      rw [rlabid] at h0
      rw [rlab0 h0]
      rfl
    · intro h0
      have h0b : ¬ (rowToRecordBase row).LabelID = 0 := by
        rw [← rlabid]
        exact h0
      obtain ⟨lab, hlab, hrecl⟩ := rlabn h0b
      rw [← rlabid] at hlab
      exact ⟨lab, hlab, hrecl⟩
  · -- one result row per matching stored record
    intro res hres hnodup rrow hrrow
    unfold RecordService.Search at hres
    have hf2 := hydrateSearchRecords_forall2 db _ res hres
    constructor
    · rintro ⟨rec, hrecmem, hrecid⟩
      obtain ⟨b, hbmem, hb⟩ := forall2_mem_right hf2 rec hrecmem
      obtain ⟨rid, _, _, _, _, _, _, _⟩ := hydrateSearchRecord_ok db b rec hb
      rw [List.mem_map] at hbmem
      obtain ⟨row, hrowmem, hbrow⟩ := hbmem
      rw [List.mem_insertionSort, List.mem_filter] at hrowmem
      obtain ⟨hrowdb, hrowpred⟩ := hrowmem
      have hrowid : row.id = rrow.id := by
        have : b.ID = row.id := by rw [← hbrow]; rfl
        rw [← hrecid, rid, this]
      have hroweq : row = rrow := List.inj_on_of_nodup_map hnodup hrowdb hrrow hrowid
      subst hroweq
      rw [Bool.and_eq_true] at hrowpred
      refine ⟨by simpa using hrowpred.1, ?_⟩
      rw [List.any_eq_true] at hrowpred
      obtain ⟨j, hj, hcond⟩ := hrowpred.2
      exact ⟨j, hj, hcond⟩
    · rintro ⟨huser, j, hj, hcond⟩
      have hrrowmem : rrow ∈ List.insertionSort recordRowTitleLe
          (db.records.filter (fun r => r.userId == userID
            && (searchJoins db r).any (fun jj =>
                 (searchConditions q a g l loc).all (fun c => c r jj)))) := by
        rw [List.mem_insertionSort, List.mem_filter]
        refine ⟨hrrow, ?_⟩
        rw [Bool.and_eq_true]
        exact ⟨by simpa using huser, List.any_eq_true.mpr ⟨j, hj, hcond⟩⟩
      obtain ⟨rec, hrecmem, hrec⟩ :=
        forall2_mem_left hf2 (rowToRecordBase rrow)
          (List.mem_map.mpr ⟨rrow, hrrowmem, rfl⟩)
      obtain ⟨rid, _, _, _, _, _, _, _⟩ := hydrateSearchRecord_ok db _ rec hrec
      exact ⟨rec, hrecmem, by rw [rid]; rfl⟩
  · -- the all-empty search
    intro hq ha hg hl hloc hwf
    subst hq
    subst ha
    subst hg
    subst hl
    subst hloc
    have hpred : ∀ r ∈ db.records, (r.userId == userID
        && (searchJoins db r).any (fun j =>
             (searchConditions "" "" "" "" "").all (fun c => c r j)))
        = (r.userId == userID) := by
      intro r _
      obtain ⟨j, hj⟩ := searchJoins_exists db r
      have hany : (searchJoins db r).any (fun j =>
          (searchConditions "" "" "" "" "").all (fun c => c r j)) = true :=
        List.any_eq_true.mpr ⟨j, hj, rfl⟩
      rw [hany, Bool.and_true]
    have hfilter : db.records.filter (fun r => r.userId == userID
          && (searchJoins db r).any (fun j =>
               (searchConditions "" "" "" "" "").all (fun c => c r j)))
        = db.records.filter (fun r => r.userId == userID) :=
      List.filter_congr hpred
    have hwf2 : ∀ b ∈ (List.insertionSort recordRowTitleLe
        (db.records.filter (fun r => r.userId == userID))).map rowToRecordBase,
        ¬ b.LabelID = 0 → ∃ lrow ∈ db.labels, lrow.id = b.LabelID := by
      intro b hb hb0
      rw [List.mem_map] at hb
      obtain ⟨row, hrow, hbrow⟩ := hb
      rw [List.mem_insertionSort, List.mem_filter] at hrow
      subst hbrow
      cases hlid : row.labelId with
      | none =>
        exact absurd (by simp [rowToRecordBase, hlid]) hb0
      | some lid =>
        have hlid0 : ¬ lid = 0 := by
          intro hc
          exact hb0 (by simp [rowToRecordBase, hlid, hc])
        obtain ⟨lrow, hlmem, hleq⟩ := hwf row hrow.1 lid hlid hlid0
        exact ⟨lrow, hlmem, by simpa [rowToRecordBase, hlid] using hleq⟩
    obtain ⟨res, hres⟩ := hydrateSearchRecords_success db _ hwf2
    have hsearch : RecordService.Search db userID "" "" "" "" "" = Except.ok res := by
      show hydrateSearchRecords db ((List.insertionSort recordRowTitleLe
        (db.records.filter (fun r => r.userId == userID
          && (searchJoins db r).any (fun j =>
               (searchConditions "" "" "" "" "").all (fun c => c r j))))).map rowToRecordBase)
        = Except.ok res
      rw [hfilter]
      exact hres
    refine ⟨res, hsearch, ?_, ?_⟩
    · have hmapeq :
          ((List.insertionSort recordRowTitleLe
            (db.records.filter (fun r => r.userId == userID))).map rowToRecordBase).map
              (fun b => b.ID)
          = res.map (fun rec => rec.ID) :=
        forall2_map_eq (fun b => b.ID) (fun rec => rec.ID)
          (fun b rec hbr => ((hydrateSearchRecord_ok db b rec hbr).1).symm)
          (hydrateSearchRecords_forall2 db _ res hres)
      rw [← hmapeq, List.map_map]
      rfl
    · intro hnodup
      have hsub : ((db.records.filter (fun r => r.userId == userID)).map
          (fun r => r.id)).Nodup :=
        List.Nodup.sublist (List.Sublist.map _ (List.filter_sublist _)) hnodup
      have hperm : List.Perm
          ((List.insertionSort recordRowTitleLe
            (db.records.filter (fun r => r.userId == userID))).map (fun r => r.id))
          ((db.records.filter (fun r => r.userId == userID)).map (fun r => r.id)) :=
        List.Perm.map _ (List.perm_insertionSort _ _)
      have hsorted : ((List.insertionSort recordRowTitleLe
          (db.records.filter (fun r => r.userId == userID))).map (fun r => r.id)).Nodup :=
        (List.Perm.nodup_iff hperm).mpr hsub
      have hmapeq :
          ((List.insertionSort recordRowTitleLe
            (db.records.filter (fun r => r.userId == userID))).map rowToRecordBase).map
              (fun b => b.ID)
          = res.map (fun rec => rec.ID) :=
        forall2_map_eq (fun b => b.ID) (fun rec => rec.ID)
          (fun b rec hbr => ((hydrateSearchRecord_ok db b rec hbr).1).symm)
          (hydrateSearchRecords_forall2 db _ res hres)
      rw [← hmapeq, List.map_map]
      exact hsorted

/-- C5 witness: the all-empty search over a concrete database returns
exactly the searching user's records, without duplicates. -/
theorem recordSearch_spec_witness :
    ∃ res, RecordService.Search dbSearchW 1 "" "" "" "" "" = Except.ok res
      ∧ res.map (fun rec => rec.ID)
          = (List.insertionSort recordRowTitleLe
              (dbSearchW.records.filter (fun r => r.userId == 1))).map (fun r => r.id)
      ∧ ((dbSearchW.records.map (fun r => r.id)).Nodup → (res.map (fun rec => rec.ID)).Nodup) :=
  (recordSearch_spec dbSearchW 1 "" "" "" "" "").2.2.2 rfl rfl rfl rfl rfl
    (by decide)
